import Mathlib

/-!
Verification development for the u2fval HTTP view layer
(src/u2fval/view.py). The orchestration logic of view.py is embedded
directly; the data model (model.py), transaction store (transactiondb.py)
and error classes (exc.py) are not part of src/, so those pieces are
modelled from the written specification and marked as such in their doc
comments.

Property values stored in device property maps are JSON values in the
source; they are abstracted here as an arbitrary type parameter. All
definitions are executable.
-/

set_option autoImplicit false

namespace U2fval

universe u

/-! ## Property maps (JSON objects of string keys) -/

/-- A property map: finitely many string keys mapped to values. -/
abbrev PropMap (α : Type u) := List (String × α)

/-- Lookup of a key in a property map (first matching entry). -/
def pmLookup {α : Type u} : PropMap α → String → Option α
  | [], _ => none
  | (k, v) :: rest, key => if k = key then some v else pmLookup rest key

/-- Left-biased choice on options, used to state merge precedence. -/
def oor {α : Type u} : Option α → Option α → Option α
  | some v, _ => some v
  | none, b => b

/-- Modelled from the spec: `Device.update_properties` lives in model.py,
which is absent from src/. Per the spec, updating properties only sets or
overwrites the keys present in the supplied map; unspecified existing keys
are retained. -/
def updateProps {α : Type u} (old upd : PropMap α) : PropMap α :=
  upd ++ old.filter (fun p => (pmLookup upd p.1).isNone)

/-! ## Persistent data model

model.py is not under src/; these records carry the attributes the spec
lists and the view code reads. -/

/-- Attestation certificate record: raw DER bytes (abstracted as a
string) plus a surrogate id. -/
structure Certificate where
  id : Nat
  der : String
  deriving Repr, DecidableEq

/-- The parsed bind_data JSON of a device: key handle, public key, an
optional device-specific app id, an optional protocol version and an
optional stored transports list. -/
structure BindData where
  keyHandle : String
  publicKey : String
  appId : Option String := none
  version : Option String := none
  transports : Option (List String) := none
  deriving Repr, DecidableEq

/-- A registered device credential. Attributes per the data-model spec:
counter is initially absent, compromised defaults to false,
authenticated_at is initially absent, transports is a bitmask. -/
structure Device (α : Type u) where
  handle : String
  bind_data : BindData
  certificate : Certificate
  counter : Option Int := none
  compromised : Bool := false
  authenticated_at : Option Nat := none
  properties : PropMap α := []
  transports : Nat := 0
  deriving Repr, DecidableEq

/-- An end-user identity owning a mapping from handle to device. -/
structure User (α : Type u) where
  name : String
  devices : List (Device α)
  deriving Repr, DecidableEq

/-- A relying-party client. -/
structure Client where
  id : Nat
  name : String
  app_id : String
  valid_facets : List String
  deriving Repr, DecidableEq

/-- Modelled from the spec: lookup of a device by handle within a user
(the user.devices mapping of model.py, absent from src/). The view code
tests the looked-up device against None, so the lookup yields an option. -/
def findDevice {α : Type u} (u : User α) (handle : String) : Option (Device α) :=
  u.devices.find? (fun d => d.handle == handle)

/-- Vendor and device labels extracted from attestation metadata for
descriptor rendering. -/
structure Metadata where
  vendor : Option String
  device : Option String
  deriving Repr, DecidableEq

/-- Decode the stored transports bitmask into transport names.
Modelled from the spec: the decoding lives in model.py, absent from
src/; bit positions follow the U2F transport flags. -/
def decodeTransports (mask : Nat) : List String :=
  (if mask.testBit 0 then ["bt"] else [])
    ++ (if mask.testBit 1 then ["ble"] else [])
    ++ (if mask.testBit 2 then ["nfc"] else [])
    ++ (if mask.testBit 3 then ["usb"] else [])

/-- The client-facing device descriptor. -/
structure Descriptor (α : Type u) where
  handle : String
  transports : List String
  vendor : Option String
  device : Option String
  properties : PropMap α
  compromised : Bool
  deriving Repr, DecidableEq

/-- Modelled from the spec: `Device.get_descriptor` lives in model.py,
absent from src/. Renders the client-facing descriptor; tolerates an
absent metadata argument (plain rendering, no vendor or device labels). -/
def getDescriptor {α : Type u} (dev : Device α) (md : Option Metadata) : Descriptor α :=
  { handle := dev.handle
    transports := decodeTransports dev.transports
    vendor := (md.map Metadata.vendor).getD none
    device := (md.map Metadata.device).getD none
    properties := dev.properties
    compromised := dev.compromised }

/-- Modelled from the spec: certificate PEM rendering (model.py, absent
from src/): convert the stored raw bytes to PEM text on demand. -/
def getPem (der : String) : String :=
  "-----BEGIN CERTIFICATE-----\n" ++ der ++ "\n-----END CERTIFICATE-----\n"

/-! ## Registered-key reconstruction (view.py lines 149-160) -/

/-- The protocol-level registered key structure produced by
`_get_registered_key`: an omitted appId is `none`. -/
structure RegisteredKey where
  keyHandle : String
  publicKey : String
  appId : Option String
  version : String
  transports : List String
  deriving Repr, DecidableEq

/-- Embedding of `_get_registered_key` (view.py lines 149-160): parse
bind_data; delete appId exactly when it is present and equals the
resolving client app id; default a missing version to "U2F_V2"; always
overwrite transports with the freshly rendered descriptor value. -/
def get_registered_key {α : Type u} (clientAppId : String) (dev : Device α)
    (descriptor : Descriptor α) : RegisteredKey :=
  { keyHandle := dev.bind_data.keyHandle
    publicKey := dev.bind_data.publicKey
    appId := if dev.bind_data.appId = some clientAppId then none else dev.bind_data.appId
    version := dev.bind_data.version.getD "U2F_V2"
    transports := descriptor.transports }

/-! ## Error taxonomy

exc.py is not under src/. The three domain kinds come from the spec; the
crash constructors model Python exceptions the view code can raise that no
error handler in view.py maps to a domain error (an attribute access on
None, a dictionary KeyError). -/

/-- Outcome errors of the view layer. -/
inductive Err (α : Type u) where
  | badInput (msg : String)
  | notFound (msg : String)
  | noEligibleDevices (msg : String) (descriptors : List (Descriptor α))
  | attributeError
  | keyError
  deriving Repr, DecidableEq

/-! ## Transaction data dictionaries and the transaction store -/

/-- A value stored under a key of the serialized ceremony context
dictionary: the property map under "properties", the key-handle to
device-handle map under "handleMap", or opaque engine data. -/
inductive TVal (α : Type u) where
  | props (p : PropMap α)
  | hmap (m : List (String × String))
  | other (s : String)
  deriving Repr, DecidableEq

/-- The ceremony context dictionary (the request_data dict of view.py). -/
abbrev TransDict (α : Type u) := List (String × TVal α)

/-- Dictionary assignment request_data[k] = v: overwrites any prior entry. -/
def setKey {α : Type u} (d : TransDict α) (k : String) (v : TVal α) : TransDict α :=
  (k, v) :: d.filter (fun e => !(e.1 == k))

/-- Dictionary lookup on the ceremony context. -/
def lookupKey {α : Type u} : TransDict α → String → Option (TVal α)
  | [], _ => none
  | (k, v) :: rest, key => if k = key then some v else lookupKey rest key

/-- The unguarded request_data two-bracket read of "properties": yields
the map when present with the right shape, `none` when it would raise. -/
def getProps {α : Type u} (d : TransDict α) : Option (PropMap α) :=
  match lookupKey d "properties" with
  | some (TVal.props p) => some p
  | _ => none

/-- The unguarded request_data read of "handleMap". -/
def getHandleMap {α : Type u} (d : TransDict α) : Option (List (String × String)) :=
  match lookupKey d "handleMap" with
  | some (TVal.hmap m) => some m
  | _ => none

/-- The ceremony context stored by `_register_request` (view.py lines
174-180): the engine output dictionary with the caller-supplied
properties assigned under "properties". -/
def regStored {α : Type u} (engineOut : TransDict α) (props : PropMap α) : TransDict α :=
  setKey engineOut "properties" (TVal.props props)

/-- The ceremony context stored by `_sign_request` (view.py lines
262-270): the engine output with "handleMap" then "properties" assigned. -/
def signStored {α : Type u} (engineOut : TransDict α)
    (handleMap : List (String × String)) (props : PropMap α) : TransDict α :=
  setKey (setKey engineOut "handleMap" (TVal.hmap handleMap)) "properties" (TVal.props props)

/-- A transaction-store key: (client id, user identifier, challenge). -/
abbrev TKey := Nat × String × String

/-- Modelled from the spec: the DBStore transaction store
(transactiondb.py, absent from src/). Holds in-flight ceremony context
under composite keys; expiry is a backend parameter and is not modelled
(an expired record behaves exactly like an absent one). -/
structure TStore (β : Type u) where
  entries : List (TKey × β)
  deriving Repr, DecidableEq

namespace TStore

/-- Modelled from the spec: `store` persists data under the composite
key, overwriting any prior record under the same key. -/
def store {β : Type u} (s : TStore β) (cid : Nat) (uid challenge : String)
    (data : β) : TStore β :=
  ⟨((cid, uid, challenge), data) :: s.entries.filter (fun e => !(e.1 == (cid, uid, challenge)))⟩

/-- Modelled from the spec: `retrieve` looks up and consumes the record
if present, returning no value if absent (or expired, or already
consumed). -/
def retrieve {β : Type u} (s : TStore β) (cid : Nat) (uid challenge : String) :
    Option β × TStore β :=
  match s.entries.find? (fun e => e.1 == (cid, uid, challenge)) with
  | none => (none, s)
  | some e => (some e.2, ⟨s.entries.filter (fun x => !(x.1 == (cid, uid, challenge)))⟩)

end TStore

/-! ## Attestation results -/

/-- A resolved attestation: trust flag, optional vendor and device info,
optional list of numeric transport flag values. -/
structure Attestation where
  trusted : Bool
  vendor_info : Option String := none
  device_info : Option String := none
  transports : Option (List Nat) := none
  deriving Repr, DecidableEq

/-- The value `get_attestation` hands back (view.py lines 41-47): either
a resolved attestation object or the cached empty string standing for
"no attestation found". Attribute access on the empty string raises. -/
inductive AttResult where
  | missing
  | found (a : Attestation)
  deriving Repr, DecidableEq

/-- Embedding of `get_metadata` (view.py lines 50-62), with the cache
layer elided: an empty attestation result yields an empty metadata map,
otherwise the vendor and device labels are taken from the attestation. -/
def get_metadata (att : AttResult) : Metadata :=
  match att with
  | AttResult.missing => ⟨none, none⟩
  | AttResult.found a => ⟨a.vendor_info, a.device_info⟩

/-! ## Client resolution (view.py lines 65-77) -/

/-- The request environment relevant to client resolution: the trusted
REMOTE_USER principal, the debug flag, the basic-auth username when an
authorization header is present, and the per-request memoized client. -/
structure ReqEnv where
  remote_user : Option String
  debug : Bool
  auth_username : Option String
  g_client : Option Client

/-- The principal name `get_client` determines (view.py lines 68-70):
REMOTE_USER, else in debug mode the basic-auth username when present. -/
def identityOf (env : ReqEnv) : Option String :=
  match env.remote_user with
  | some n => some n
  | none => if env.debug then env.auth_username else none

/-- Embedding of `get_client` (view.py lines 65-77). The query
`Client.query.filter(Client.name == name).one()` under the bare except
clause succeeds exactly when one stored client carries the name and
raises NotFound otherwise. -/
def get_client {α : Type u} (clients : List Client) (env : ReqEnv) :
    Except (Err α) Client :=
  match env.g_client with
  | some c => Except.ok c
  | none =>
    match identityOf env with
    | none => Except.error (Err.badInput "No client specified")
    | some n =>
      match clients.filter (fun c => c.name == n) with
      | [c] => Except.ok c
      | _ => Except.error (Err.notFound "Client not found")

/-! ## User and device routes (view.py lines 131-146, 321-351) -/

/-- HTTP methods of the embedded routes. -/
inductive Method where
  | GET
  | POST
  | DELETE
  deriving Repr, DecidableEq

/-- An HTTP handler outcome: the 204 no-content response, a JSON
descriptor or descriptor list, PEM text, or a raised error. -/
inductive Outcome (α : Type u) where
  | noContent
  | json (d : Descriptor α)
  | jsonList (ds : List (Descriptor α))
  | pem (s : String)
  | err (e : Err α)
  deriving Repr, DecidableEq

/-- Modelled from the spec: user deletion cascades devices; device
deletion removes the device from the user mapping. -/
def removeDevice {α : Type u} (u : User α) (handle : String) : User α :=
  { u with devices := u.devices.filter (fun d => !(d.handle == handle)) }

/-- Replace the device bearing the given handle with an updated record
(the in-place mutation plus commit of the source). -/
def replaceDevice {α : Type u} (u : User α) (dev : Device α) : User α :=
  { u with devices := u.devices.map (fun d => if d.handle == dev.handle then dev else d) }

/-- Embedding of the `user` route (view.py lines 131-146). The second
component is the user record after the request (None when deleted or
never present). `mdOf` stands for get_metadata on a device. -/
def user_route {α : Type u} (method : Method) (user? : Option (User α))
    (mdOf : Device α → Metadata) : Outcome α × Option (User α) :=
  match method with
  | Method.DELETE => (Outcome.noContent, none)
  | _ =>
    match user? with
    | some u => (Outcome.jsonList (u.devices.map (fun d => getDescriptor d (some (mdOf d)))), some u)
    | none => (Outcome.jsonList [], none)

/-- Embedding of the `device` route (view.py lines 321-342): NotFound
when the user is absent; the device is looked up by handle before the
method dispatch; DELETE is an idempotent no-op on an absent device; GET
and POST raise NotFound on an absent device; POST merges the supplied
properties before rendering. -/
def device_route {α : Type u} (method : Method) (user? : Option (User α))
    (handle : String) (props : PropMap α) (mdOf : Device α → Metadata) :
    Outcome α × Option (User α) :=
  match user? with
  | none => (Outcome.err (Err.notFound "Device not found"), none)
  | some u =>
    match method, findDevice u handle with
    | Method.DELETE, some _ => (Outcome.noContent, some (removeDevice u handle))
    | Method.DELETE, none => (Outcome.noContent, some u)
    | Method.POST, none => (Outcome.err (Err.notFound "Device not found"), some u)
    | Method.POST, some d =>
      let d2 := { d with properties := updateProps d.properties props }
      (Outcome.json (getDescriptor d2 (some (mdOf d2))), some (replaceDevice u d2))
    | Method.GET, none => (Outcome.err (Err.notFound "Device not found"), some u)
    | Method.GET, some d => (Outcome.json (getDescriptor d (some (mdOf d))), some u)

/-- Embedding of the `device_certificate` route (view.py lines 345-351):
NotFound when the user is absent; when the handle matches no device the
source reads `.certificate` off the absent device, an attribute error. -/
def device_certificate {α : Type u} (user? : Option (User α)) (handle : String) :
    Outcome α :=
  match user? with
  | none => Outcome.err (Err.notFound "Device not found")
  | some u =>
    match findDevice u handle with
    | none => Outcome.err Err.attributeError
    | some d => Outcome.pem (getPem d.certificate.der)

/-! ## Begin authentication (view.py lines 237-273) -/

/-- The data `_sign_request` derives before invoking the engine: eligible
registered keys, eligible descriptors, and the key-handle to
device-handle map built in the same loop. -/
def signRequestKeys {α : Type u} (clientAppId : String) (u : User α)
    (mdOf : Device α → Metadata) :
    List RegisteredKey × List (Descriptor α) × List (String × String) :=
  let eligible := u.devices.filter (fun d => !d.compromised)
  let descriptors := eligible.map (fun d => getDescriptor d (some (mdOf d)))
  let keys := eligible.map (fun d => get_registered_key clientAppId d (getDescriptor d (some (mdOf d))))
  let handleMap := eligible.map (fun d => (d.bind_data.keyHandle, d.handle))
  (keys, descriptors, handleMap)

/-- Embedding of `_sign_request` up to the engine invocation (view.py
lines 237-260): the eligibility checks and the partition of devices. On
success it yields the data handed to begin_authentication plus the
descriptors returned to the caller. -/
def sign_request {α : Type u} (client : Client) (user? : Option (User α))
    (mdOf : Device α → Metadata) :
    Except (Err α) (List RegisteredKey × List (Descriptor α) × List (String × String)) :=
  match user? with
  | none => Except.error (Err.noEligibleDevices "No devices registered" [])
  | some u =>
    if u.devices.length = 0 then
      Except.error (Err.noEligibleDevices "No devices registered" [])
    else
      if (signRequestKeys client.app_id u mdOf).1.isEmpty then
        Except.error (Err.noEligibleDevices "All devices compromised"
          (u.devices.map (fun d => getDescriptor d none)))
      else
        Except.ok (signRequestKeys client.app_id u mdOf)

/-! ## Complete authentication (view.py lines 276-300) -/

/-- Python `dev.counter or -1` (view.py line 292): None and the falsy
integer 0 both yield -1; any other stored value yields itself. -/
def counterOrNeg1 (c : Option Int) : Int :=
  match c with
  | none => -1
  | some v => if v = 0 then -1 else v

/-- The counter branch of `_sign_response` (view.py lines 292-300): when
the presented counter exceeds `counterOrNeg1` of the stored counter, the
device record is updated (counter, timestamp, two-pass property merge)
and committed; otherwise nothing happens and no response is produced. -/
def signCommit {α : Type u} (dev : Device α) (counter : Int) (now : Nat)
    (reqProps respProps : PropMap α) : Option (Device α) :=
  if counter > counterOrNeg1 dev.counter then
    some { dev with
      counter := some counter
      authenticated_at := some now
      properties := updateProps (updateProps dev.properties reqProps) respProps }
  else none

/-- The result of the external complete_authentication engine: the
identified key handle, the signature counter and the presence byte. -/
structure SignResult where
  keyHandle : String
  counter : Int
  presence : Nat
  deriving Repr, DecidableEq

/-- Embedding of `_sign_response` (view.py lines 276-300). The engine is
a parameter; the result carries the outcome (a successful commit yields
the descriptor, the silent non-commit branch yields no body), the user
state after the request and the transaction store after the request. -/
def sign_response {α : Type u} (client : Client) (user? : Option (User α))
    (userId challenge : String) (engine : TransDict α → SignResult)
    (mdOf : Device α → Metadata) (respProps : PropMap α) (now : Nat)
    (s : TStore (TransDict α)) :
    Except (Err α) (Option (Descriptor α)) × Option (User α) × TStore (TransDict α) :=
  match s.retrieve client.id userId challenge with
  | (none, s2) => (Except.error (Err.notFound "Transaction not found"), user?, s2)
  | (some rd, s2) =>
    let res := engine rd
    match user? with
    | none => (Except.error Err.attributeError, user?, s2)
    | some u =>
      match getHandleMap rd with
      | none => (Except.error Err.keyError, some u, s2)
      | some hm =>
        match pmLookup hm res.keyHandle with
        | none => (Except.error Err.keyError, some u, s2)
        | some h =>
          match findDevice u h with
          | none => (Except.error Err.attributeError, some u, s2)
          | some dev =>
            if dev.compromised then
              (Except.error (Err.badInput "Device is compromised"), some u, s2)
            else if res.presence = 0 then
              (Except.error (Err.badInput "User presence byte not set"), some u, s2)
            else
              if res.counter > counterOrNeg1 dev.counter then
                match getProps rd with
                | none => (Except.error Err.keyError, some u, s2)
                | some reqProps =>
                  match signCommit dev res.counter now reqProps respProps with
                  | some dev2 =>
                    (Except.ok (some (getDescriptor dev2 (some (mdOf dev2)))),
                      some (replaceDevice u dev2), s2)
                  | none => (Except.ok none, some u, s2)
              else (Except.ok none, some u, s2)

/-! ## Complete registration (view.py lines 187-215) -/

/-- Modelled from the spec: `User.add_device` (model.py, absent from
src/): create a Device from the registration bind data, the certificate
and the transports bitmask, under a fresh handle, and attach it. -/
def addDevice {α : Type u} (u : User α) (handle : String) (bd : BindData)
    (cert : Certificate) (tr : Nat) : User α × Device α :=
  let d : Device α := { handle := handle, bind_data := bd, certificate := cert, transports := tr }
  ({ u with devices := u.devices ++ [d] }, d)

/-- Embedding of `_register_response` (view.py lines 187-215). The
engine (complete_registration) and the attestation resolution are
parameters. The trust gate evaluates `attestation.trusted` only when
untrusted devices are disallowed; an empty attestation result there, or
at the transports summation, is an attribute error. On success the new
device is persisted with the two-pass property merge applied. -/
def register_response {α : Type u} (allowUntrusted : Bool) (client : Client)
    (user? : Option (User α)) (userId challenge : String)
    (engine : TransDict α → BindData × Certificate)
    (attOf : Certificate → AttResult)
    (respProps : PropMap α) (newHandle : String)
    (s : TStore (TransDict α)) :
    Except (Err α) (Descriptor α) × Option (User α) × TStore (TransDict α) :=
  match s.retrieve client.id userId challenge with
  | (none, s2) => (Except.error (Err.notFound "Transaction not found"), user?, s2)
  | (some rd, s2) =>
    let bd := (engine rd).1
    let cert := (engine rd).2
    let att := attOf cert
    let gate : Option (Err α) :=
      if !allowUntrusted then
        match att with
        | AttResult.missing => some Err.attributeError
        | AttResult.found a =>
          if !a.trusted then some (Err.badInput "Device attestation not trusted") else none
      else none
    match gate with
    | some e => (Except.error e, user?, s2)
    | none =>
      let user :=
        match user? with
        | some u => u
        | none => { name := userId, devices := [] }
      match att with
      | AttResult.missing => (Except.error Err.attributeError, user?, s2)
      | AttResult.found a =>
        let transports := (a.transports.getD []).sum
        let user2 := (addDevice user newHandle bd cert transports).1
        let dev := (addDevice user newHandle bd cert transports).2
        match getProps rd with
        | none => (Except.error Err.keyError, user?, s2)
        | some reqProps =>
          let dev2 := { dev with
            properties := updateProps (updateProps dev.properties reqProps) respProps }
          let user3 := replaceDevice user2 dev2
          (Except.ok (getDescriptor dev2 (some (get_metadata att))), some user3, s2)

/-! ## Concrete fixtures used by witnesses and counterexamples -/

/-- A concrete certificate. -/
def certW : Certificate := ⟨1, "d"⟩

/-- Bind data with no stored appId, version or transports. -/
def bdW : BindData := { keyHandle := "kh", publicKey := "pk" }

/-- Bind data whose stored appId is "A" and whose version is absent. -/
def bdA : BindData := { keyHandle := "kh", publicKey := "pk", appId := some "A" }

/-- A device with handle h1 and an unset counter. -/
def devW : Device String := { handle := "h1", bind_data := bdW, certificate := certW }

/-- A device whose bind data carries appId "A" and no version. -/
def devA : Device String := { handle := "h1", bind_data := bdA, certificate := certW }

/-- A device whose stored counter is the already-set value 0. -/
def devC0 : Device String := { handle := "h1", bind_data := bdW, certificate := certW, counter := some 0 }

/-- A compromised device with handle h2. -/
def devComp : Device String :=
  { handle := "h2", bind_data := bdW, certificate := certW, compromised := true }

/-- A user owning exactly the device with handle h1. -/
def uW : User String := ⟨"u", [devW]⟩

/-- A user whose only device is compromised. -/
def uComp : User String := ⟨"u", [devComp]⟩

/-- A concrete client named c with app id "A". -/
def clientW : Client := ⟨1, "c", "A", ["A"]⟩

/-- Metadata assignment used in witnesses. -/
def mdW : Device String → Metadata := fun _ => ⟨none, none⟩

/-- An environment with no principal at all and debug off. -/
def envNone : ReqEnv := ⟨none, false, none, none⟩

/-- An environment whose trusted principal is the name c. -/
def envC : ReqEnv := ⟨some "c", false, none, none⟩

/-- An untrusted attestation. -/
def attBad : Attestation := { trusted := false }

/-- A concrete stored registration ceremony context. -/
def rdReg : TransDict String := regStored [] [("p", "q")]

/-- A store holding exactly the registration transaction of client 1,
user u, challenge ch. -/
def storeReg : TStore (TransDict String) := TStore.store ⟨[]⟩ 1 "u" "ch" rdReg

/-- A concrete registration engine result. -/
def engineW : TransDict String → BindData × Certificate := fun _ => (bdW, certW)

/-- Attestation resolution returning the untrusted attestation. -/
def attOfBad : Certificate → AttResult := fun _ => AttResult.found attBad

/-- A concrete authentication engine result naming key handle kh with
counter 1 and the presence byte set. -/
def signEngW : TransDict String → SignResult := fun _ => ⟨"kh", 1, 1⟩

/-- The device `register_response` persists in the concrete witness run:
fresh handle h9, the begin-time property applied. -/
def dev9 : Device String :=
  { handle := "h9", bind_data := bdW, certificate := certW, properties := [("p", "q")] }

/-- The descriptor `register_response` returns in the concrete witness run. -/
def descW9 : Descriptor String := getDescriptor dev9 (some ⟨none, none⟩)

/-- The user state after the concrete witness registration. -/
def userW9 : User String := ⟨"u", [devW, dev9]⟩

/-- The device `signCommit` produces in the concrete C5 witness run. -/
def devC5 : Device String :=
  { devW with
    counter := some 1
    authenticated_at := some 5
    properties := updateProps (updateProps devW.properties [("name", "a")]) [("name", "b")] }

/-- An environment whose trusted principal is the unknown name z. -/
def envZ : ReqEnv := ⟨some "z", false, none, none⟩

/-- A user with no devices at all. -/
def uEmpty : User String := ⟨"v", []⟩

/-- The registered keys `_sign_request` hands the engine for uW. -/
def keysW : List RegisteredKey :=
  [get_registered_key "A" devW (getDescriptor devW (some ⟨none, none⟩))]

/-- The descriptors `_sign_request` returns for uW. -/
def descsW : List (Descriptor String) := [getDescriptor devW (some ⟨none, none⟩)]

/-- The key-handle to device-handle map `_sign_request` builds for uW. -/
def hmW : List (String × String) := [("kh", "h1")]

/-! ## Helper lemmas -/

theorem pmLookup_append {α : Type u} (a b : PropMap α) (k : String) :
    pmLookup (a ++ b) k = oor (pmLookup a k) (pmLookup b k) := by
  induction a with
  | nil => simp [pmLookup, oor]
  | cons hd tl ih =>
    obtain ⟨k0, v0⟩ := hd
    by_cases h : k0 = k
    · simp [pmLookup, h, oor]
    · simpa [pmLookup, h] using ih

theorem pmLookup_filter_none {α : Type u} (upd old : PropMap α) (k : String)
    (h : pmLookup upd k = none) :
    pmLookup (old.filter (fun p => (pmLookup upd p.1).isNone)) k
      = pmLookup old k := by
  induction old with
  | nil => rfl
  | cons hd tl ih =>
    obtain ⟨k0, v0⟩ := hd
    by_cases hk : k0 = k
    · subst hk
      simp [pmLookup, h, Option.isNone]
    · cases hu : pmLookup upd k0 with
      | none => simpa [pmLookup, hk, hu] using ih
      | some v => simpa [pmLookup, hk, hu] using ih

/-- Lookup after a property update: the updated map wins on keys it
contains, other keys retain their prior value. -/
theorem pmLookup_updateProps {α : Type u} (old upd : PropMap α) (k : String) :
    pmLookup (updateProps old upd) k = oor (pmLookup upd k) (pmLookup old k) := by
  unfold updateProps
  rw [pmLookup_append]
  cases h : pmLookup upd k with
  | some v => simp [oor]
  | none => simp [oor, pmLookup_filter_none upd old k h]

theorem lookupKey_setKey_same {α : Type u} (d : TransDict α) (k : String) (v : TVal α) :
    lookupKey (setKey d k v) k = some v := by
  simp [setKey, lookupKey]

theorem lookupKey_filter_ne {α : Type u} (d : TransDict α) (k key : String)
    (h : key ≠ k) :
    lookupKey (d.filter (fun e => !(e.1 == k))) key = lookupKey d key := by
  induction d with
  | nil => rfl
  | cons hd tl ih =>
    obtain ⟨k0, v0⟩ := hd
    by_cases hk : k0 = k
    · subst hk
      simp [lookupKey, Ne.symm h, ih]
    · simp only [List.filter_cons]
      have : (k0 == k) = false := by simpa using hk
      simp [this, lookupKey, ih]

theorem lookupKey_setKey_ne {α : Type u} (d : TransDict α) (k key : String)
    (v : TVal α) (h : key ≠ k) :
    lookupKey (setKey d k v) key = lookupKey d key := by
  simp [setKey, lookupKey, Ne.symm h, lookupKey_filter_ne d k key h]

/-! ## Claim theorems -/

/-- Claim C6: for every device and rendered descriptor, the registered-key
reconstruction omits appId exactly when it equals the resolving client app
id and keeps it when it differs, fills a missing version with the literal
"U2F_V2" while keeping a present version, and always replaces transports
with the freshly rendered descriptor value. -/
theorem c6_registered_key_normalizations {α : Type u} (appId : String)
    (dev : Device α) (descriptor : Descriptor α) :
    (dev.bind_data.appId = some appId →
      (get_registered_key appId dev descriptor).appId = none)
    ∧ (∀ a, dev.bind_data.appId = some a → a ≠ appId →
      (get_registered_key appId dev descriptor).appId = some a)
    ∧ (dev.bind_data.appId = none →
      (get_registered_key appId dev descriptor).appId = none)
    ∧ (dev.bind_data.version = none →
      (get_registered_key appId dev descriptor).version = "U2F_V2")
    ∧ (∀ v, dev.bind_data.version = some v →
      (get_registered_key appId dev descriptor).version = v)
    ∧ (get_registered_key appId dev descriptor).transports = descriptor.transports := by
  refine ⟨?_, ?_, ?_, ?_, ?_, rfl⟩
  · intro h
    simp [get_registered_key, h]
  · intro a ha hne
    simp [get_registered_key, ha, hne]
  · intro h
    simp [get_registered_key, h]
  · intro h
    simp [get_registered_key, h]
  · intro v h
    simp [get_registered_key, h]

/-- Witness for C6 at a concrete device whose bind data holds appId "A"
and no version, resolved against client app id "A". -/
theorem c6_registered_key_normalizations_witness :
    (get_registered_key "A" devA (getDescriptor devA none)).appId = none
    ∧ (get_registered_key "A" devA (getDescriptor devA none)).version = "U2F_V2"
    ∧ (get_registered_key "A" devA (getDescriptor devA none)).transports
        = (getDescriptor devA none).transports := by
  have h := c6_registered_key_normalizations "A" devA (getDescriptor devA none)
  exact ⟨h.1 rfl, h.2.2.2.1 rfl, h.2.2.2.2.2⟩

/-- Claim C10: the transaction stored by begin-registration always holds a
properties key, the transaction stored by begin-authentication always
holds a handleMap key and a properties key, so the unguarded completion
reads of those keys succeed on any transaction created by the
corresponding begin operation. -/
theorem c10_stored_transactions_have_keys {α : Type u} (engineOut : TransDict α)
    (hm : List (String × String)) (props : PropMap α) :
    getProps (regStored engineOut props) = some props
    ∧ getHandleMap (signStored engineOut hm props) = some hm
    ∧ getProps (signStored engineOut hm props) = some props := by
  refine ⟨?_, ?_, ?_⟩
  · simp [getProps, regStored, lookupKey_setKey_same]
  · have hlk : lookupKey (signStored engineOut hm props) "handleMap"
        = some (TVal.hmap hm) := by
      unfold signStored
      rw [lookupKey_setKey_ne _ _ _ _ (by decide)]
      exact lookupKey_setKey_same _ _ _
    simp [getHandleMap, hlk]
  · simp [getProps, signStored, lookupKey_setKey_same]

/-- Claim C5: both completion handlers apply the ceremony-begin-time
property map before the response-time map, so on a key present in both
the response-time value is final, a key present in only one map keeps
that value, and an untouched pre-existing key keeps its stored value. -/
theorem c5_two_pass_merge_precedence {α : Type u} :
    (∀ (p reqP respP : PropMap α) (k : String),
      pmLookup (updateProps (updateProps p reqP) respP) k
        = oor (pmLookup respP k) (oor (pmLookup reqP k) (pmLookup p k)))
    ∧ (∀ (dev : Device α) (c : Int) (now : Nat) (reqP respP : PropMap α)
        (dev2 : Device α),
      signCommit dev c now reqP respP = some dev2 →
      dev2.properties = updateProps (updateProps dev.properties reqP) respP)
    ∧ (∀ (allowUntrusted : Bool) (client : Client) (user? : Option (User α))
        (userId challenge : String) (engine : TransDict α → BindData × Certificate)
        (attOf : Certificate → AttResult) (respP : PropMap α) (newHandle : String)
        (s : TStore (TransDict α)) (desc : Descriptor α) (u3 : Option (User α))
        (s3 : TStore (TransDict α)),
      register_response allowUntrusted client user? userId challenge engine attOf
          respP newHandle s = (Except.ok desc, u3, s3) →
      ∃ rd reqP2, (s.retrieve client.id userId challenge).1 = some rd
        ∧ getProps rd = some reqP2
        ∧ desc.properties = updateProps (updateProps [] reqP2) respP) := by
  refine ⟨?_, ?_, ?_⟩
  · intro p reqP respP k
    rw [pmLookup_updateProps, pmLookup_updateProps]
  · intro dev c now reqP respP dev2 h
    unfold signCommit at h
    split at h
    · cases h
      rfl
    · cases h
  · intro allowUntrusted client user? userId challenge engine attOf respP newHandle
      s desc u3 s3 h
    unfold register_response at h
    rcases hr : s.retrieve client.id userId challenge with ⟨rdo, s2⟩
    rw [hr] at h
    cases rdo with
    | none => cases h
    | some rd =>
      simp only at h
      refine ⟨rd, ?_⟩
      split at h
      · cases h
      · split at h
        · cases h
        · rename_i a _
          cases hp : getProps rd with
          | none => rw [hp] at h; cases h
          | some reqP2 =>
            rw [hp] at h
            simp only [Prod.mk.injEq] at h
            refine ⟨reqP2, by simp [hr], rfl, ?_⟩
            have := h.1
            cases this
            rfl

/-- Witness for C5: concrete two-pass merges through the authentication
commit and the registration completion. -/
theorem c5_two_pass_merge_precedence_witness :
    pmLookup (updateProps (updateProps ([("a", "0")] : PropMap String)
        [("name", "a")]) [("name", "b")]) "name"
      = oor (pmLookup ([("name", "b")] : PropMap String) "name")
          (oor (pmLookup ([("name", "a")] : PropMap String) "name")
            (pmLookup ([("a", "0")] : PropMap String) "name"))
    ∧ devC5.properties = updateProps (updateProps devW.properties [("name", "a")]) [("name", "b")]
    ∧ ∃ rd reqP2, (storeReg.retrieve clientW.id "u" "ch").1 = some rd
        ∧ getProps rd = some reqP2
        ∧ descW9.properties = updateProps (updateProps [] reqP2) ([] : PropMap String) := by
  refine ⟨(c5_two_pass_merge_precedence (α := String)).1 _ _ _ _,
    (c5_two_pass_merge_precedence (α := String)).2.1 devW 1 5 _ _ devC5 (by decide),
    (c5_two_pass_merge_precedence (α := String)).2.2 true clientW (some uW) "u" "ch"
      engineW attOfBad [] "h9" storeReg descW9 (some userW9) ⟨[]⟩ rfl⟩

/-- Claim C1 (the code violates it): the authentication commit is guarded
by the Python test counter > (dev.counter or -1); a stored counter of 0
is falsy, so presenting counter 0 against an already-set stored counter 0
re-enters the update branch: the last-authenticated timestamp and the
properties are updated, the record is committed and a response body is
produced, where the claim requires the replay to be rejected with no
state change for every already-set stored value including 0. -/
theorem c1_zero_counter_replay_updates_state :
    signCommit devC0 0 7 [] [("k", "v")]
      = some { devC0 with
          counter := some 0
          authenticated_at := some 7
          properties := [("k", "v")] }
    ∧ devC0.counter = some 0
    ∧ devC0.authenticated_at = none := by
  refine ⟨by decide, rfl, rfl⟩

/-- Claim C2: a DELETE for a nonexistent user on the user route, and a
DELETE for an existing user with an absent device handle on the device
route, both return the no-content outcome without error, identical to
the outcome of deleting an existing user or device. -/
theorem c2_delete_idempotent {α : Type u} (u : User α) (h1 h2 : String)
    (props : PropMap α) (mdOf : Device α → Metadata) (d : Device α)
    (habs : findDevice u h1 = none) (hpres : findDevice u h2 = some d) :
    (user_route Method.DELETE (none : Option (User α)) mdOf).1 = Outcome.noContent
    ∧ (user_route Method.DELETE (some u) mdOf).1 = Outcome.noContent
    ∧ device_route Method.DELETE (some u) h1 props mdOf = (Outcome.noContent, some u)
    ∧ (device_route Method.DELETE (some u) h2 props mdOf).1 = Outcome.noContent := by
  refine ⟨rfl, rfl, ?_, ?_⟩
  · simp [device_route, habs]
  · simp [device_route, hpres]

/-- Witness for C2: the concrete user uW owns only handle h1, so hx is
absent and h1 present. -/
theorem c2_delete_idempotent_witness :
    (user_route Method.DELETE (none : Option (User String)) mdW).1 = Outcome.noContent
    ∧ (user_route Method.DELETE (some uW) mdW).1 = Outcome.noContent
    ∧ device_route Method.DELETE (some uW) "hx" [] mdW = (Outcome.noContent, some uW)
    ∧ (device_route Method.DELETE (some uW) "h1" [] mdW).1 = Outcome.noContent :=
  c2_delete_idempotent uW "hx" "h1" [] mdW devW (by decide) (by decide)

/-- Claim C3 (the code violates it on the certificate route): for an
existing user and an absent handle, device_certificate reads
`.certificate` off the absent device (view.py line 351 lacks the None
check its sibling route performs), an unhandled attribute error rather
than the NotFound the claim requires. -/
theorem c3_certificate_route_crashes_on_missing_handle :
    device_certificate (some uW) "hx" = Outcome.err (Err.attributeError : Err String)
    ∧ ∀ msg : String,
      device_certificate (some uW) "hx" ≠ Outcome.err (Err.notFound msg) := by
  refine ⟨by decide, ?_⟩
  intro msg h
  rw [show device_certificate (some uW) "hx"
      = Outcome.err (Err.attributeError : Err String) from by decide] at h
  simp at h

/-- Claim C7: begin-authentication fails NoEligibleDevices with message
"No devices registered" and an empty descriptor list when the user is
absent or has no devices; fails NoEligibleDevices with message "All
devices compromised" carrying plain-rendered descriptors of all devices
when every device is compromised; and otherwise hands the engine only the
non-compromised devices and returns only their descriptors. -/
theorem c7_sign_request_eligibility {α : Type u} (client : Client)
    (mdOf : Device α → Metadata) :
    (sign_request client (none : Option (User α)) mdOf
      = Except.error (Err.noEligibleDevices "No devices registered" []))
    ∧ (∀ u : User α, u.devices = [] →
      sign_request client (some u) mdOf
        = Except.error (Err.noEligibleDevices "No devices registered" []))
    ∧ (∀ u : User α, u.devices ≠ [] → (∀ d ∈ u.devices, d.compromised = true) →
      sign_request client (some u) mdOf
        = Except.error (Err.noEligibleDevices "All devices compromised"
            (u.devices.map (fun d => getDescriptor d none))))
    ∧ (∀ (u : User α) (keys : List RegisteredKey) (descs : List (Descriptor α))
        (hm : List (String × String)),
      sign_request client (some u) mdOf = Except.ok (keys, descs, hm) →
      (∀ d ∈ u.devices, d.compromised = false →
        getDescriptor d (some (mdOf d)) ∈ descs
        ∧ get_registered_key client.app_id d (getDescriptor d (some (mdOf d))) ∈ keys)
      ∧ (∀ dsc ∈ descs, ∃ d ∈ u.devices, d.compromised = false
          ∧ dsc = getDescriptor d (some (mdOf d)))
      ∧ (∀ k ∈ keys, ∃ d ∈ u.devices, d.compromised = false
          ∧ k = get_registered_key client.app_id d (getDescriptor d (some (mdOf d))))) := by
  refine ⟨rfl, ?_, ?_, ?_⟩
  · intro u h
    simp [sign_request, h]
  · intro u hne hall
    have hlen : ¬ u.devices.length = 0 := by
      simpa [List.length_eq_zero] using hne
    have hfil : u.devices.filter (fun d => !d.compromised) = [] := by
      rw [List.filter_eq_nil_iff]
      intro d hd
      simp [hall d hd]
    unfold sign_request
    simp [hlen, signRequestKeys, hfil]
  · intro u keys descs hm h
    unfold sign_request at h
    have h0 : (if u.devices.length = 0 then
        (Except.error (Err.noEligibleDevices "No devices registered" [])
          : Except (Err α) (List RegisteredKey × List (Descriptor α) × List (String × String)))
      else if (signRequestKeys client.app_id u mdOf).1.isEmpty = true then
        Except.error (Err.noEligibleDevices "All devices compromised"
          (u.devices.map (fun d => getDescriptor d none)))
      else Except.ok (signRequestKeys client.app_id u mdOf))
        = Except.ok (keys, descs, hm) := h
    by_cases hlen : u.devices.length = 0
    · rw [if_pos hlen] at h0
      cases h0
    · rw [if_neg hlen] at h0
      by_cases hemp : (signRequestKeys client.app_id u mdOf).1.isEmpty = true
      · rw [if_pos hemp] at h0
        cases h0
      · rw [if_neg hemp] at h0
        have h2 : signRequestKeys client.app_id u mdOf = (keys, descs, hm) := by
          cases h0
          rfl
        have hk : keys = (u.devices.filter (fun d => !d.compromised)).map
            (fun d => get_registered_key client.app_id d (getDescriptor d (some (mdOf d)))) := by
          have h3 := congrArg (fun t => t.1) h2
          simp only [signRequestKeys] at h3
          exact h3.symm
        have hd : descs = (u.devices.filter (fun d => !d.compromised)).map
            (fun d => getDescriptor d (some (mdOf d))) := by
          have h3 := congrArg (fun t => t.2.1) h2
          simp only [signRequestKeys] at h3
          exact h3.symm
        refine ⟨?_, ?_, ?_⟩
        · intro d hdm hcomp
          have hmem : d ∈ u.devices.filter (fun d => !d.compromised) :=
            List.mem_filter.mpr ⟨hdm, by simp [hcomp]⟩
          exact ⟨hd ▸ List.mem_map_of_mem _ hmem, hk ▸ List.mem_map_of_mem _ hmem⟩
        · intro dsc hdsc
          rw [hd] at hdsc
          obtain ⟨d, hdm, hde⟩ := List.mem_map.mp hdsc
          have := List.mem_filter.mp hdm
          exact ⟨d, this.1, by simpa using this.2, hde.symm⟩
        · intro k hkm
          rw [hk] at hkm
          obtain ⟨d, hdm, hde⟩ := List.mem_map.mp hkm
          have := List.mem_filter.mp hdm
          exact ⟨d, this.1, by simpa using this.2, hde.symm⟩

/-- Witness for C7 at concrete users: an absent user, a user with no
devices, a user whose only device is compromised, and uW whose single
device is eligible. -/
theorem c7_sign_request_eligibility_witness :
    sign_request clientW (none : Option (User String)) mdW
      = Except.error (Err.noEligibleDevices "No devices registered" [])
    ∧ sign_request clientW (some uEmpty) mdW
      = Except.error (Err.noEligibleDevices "No devices registered" [])
    ∧ sign_request clientW (some uComp) mdW
      = Except.error (Err.noEligibleDevices "All devices compromised"
          (uComp.devices.map (fun d => getDescriptor d none)))
    ∧ getDescriptor devW (some (mdW devW)) ∈ descsW
    ∧ get_registered_key clientW.app_id devW (getDescriptor devW (some (mdW devW))) ∈ keysW := by
  have h := c7_sign_request_eligibility (α := String) clientW mdW
  have h4 := (h.2.2.2 uW keysW descsW hmW rfl).1 devW (by simp [uW]) rfl
  exact ⟨h.1, h.2.1 uEmpty rfl, h.2.2.1 uComp (by simp [uComp]) (by
    intro d hd
    simp only [uComp] at hd
    rw [List.mem_singleton] at hd
    subst hd
    rfl), h4.1, h4.2⟩

/-- Claim C9: client resolution yields BadInput "No client specified"
exactly when no principal identity can be determined (no trusted
REMOTE_USER, and the debug basic-auth fallback off or without a
username), NotFound "Client not found" when an identity matches no stored
client, and the matching client when exactly one exists. -/
theorem c9_client_resolution {α : Type u} (clients : List Client) (env : ReqEnv)
    (hg : env.g_client = none) :
    (identityOf env = none ↔
      env.remote_user = none ∧ (env.debug = false ∨ env.auth_username = none))
    ∧ (identityOf env = none →
      get_client (α := α) clients env = Except.error (Err.badInput "No client specified"))
    ∧ (∀ n, identityOf env = some n → (∀ c ∈ clients, c.name ≠ n) →
      get_client (α := α) clients env = Except.error (Err.notFound "Client not found"))
    ∧ (∀ n c, identityOf env = some n → clients.filter (fun x => x.name == n) = [c] →
      get_client (α := α) clients env = Except.ok c) := by
  refine ⟨?_, ?_, ?_, ?_⟩
  · unfold identityOf
    rcases env with ⟨ru, dbg, au, gc⟩
    cases ru <;> cases dbg <;> cases au <;> simp
  · intro h
    unfold get_client
    rw [hg]
    simp [h]
  · intro n hn hno
    have hfil : clients.filter (fun x => x.name == n) = [] := by
      rw [List.filter_eq_nil_iff]
      intro c hc
      simpa using hno c hc
    unfold get_client
    rw [hg]
    simp only [hn, hfil]
  · intro n c hn hfil
    unfold get_client
    rw [hg]
    simp only [hn, hfil]

/-- Witness for C9: one stored client named c; resolution with no
principal, with the unknown principal z, and with the matching
principal c. -/
theorem c9_client_resolution_witness :
    get_client (α := String) [clientW] envNone
      = Except.error (Err.badInput "No client specified")
    ∧ get_client (α := String) [clientW] envZ
      = Except.error (Err.notFound "Client not found")
    ∧ get_client (α := String) [clientW] envC = Except.ok clientW := by
  refine ⟨(c9_client_resolution [clientW] envNone rfl).2.1 rfl,
    (c9_client_resolution [clientW] envZ rfl).2.2.1 "z" rfl ?_,
    (c9_client_resolution [clientW] envC rfl).2.2.2 "c" clientW rfl (by decide)⟩
  intro c hc
  rw [List.mem_singleton] at hc
  subst hc
  decide

theorem retrieve_store_same {β : Type u} (s : TStore β) (cid : Nat)
    (uid ch : String) (d : β) :
    ((s.store cid uid ch d).retrieve cid uid ch).1 = some d := by
  simp [TStore.store, TStore.retrieve, List.find?]

theorem retrieve_twice_none {β : Type u} (s : TStore β) (cid : Nat) (uid ch : String) :
    (((s.retrieve cid uid ch).2).retrieve cid uid ch).1 = none := by
  unfold TStore.retrieve
  cases hf : s.entries.find? (fun e => e.1 == (cid, uid, ch)) with
  | none => simp [hf]
  | some e =>
    have hnone : (s.entries.filter (fun x => !(x.1 == (cid, uid, ch)))).find?
        (fun e => e.1 == (cid, uid, ch)) = none := by
      rw [List.find?_eq_none]
      intro x hx
      have := (List.mem_filter.mp hx).2
      simpa using this
    simp [hf, hnone]

theorem retrieve_none_eq {β : Type u} (s : TStore β) (cid : Nat) (uid ch : String)
    (h : (s.retrieve cid uid ch).1 = none) :
    s.retrieve cid uid ch = (none, s) := by
  unfold TStore.retrieve at h ⊢
  cases hf : s.entries.find? (fun e => e.1 == (cid, uid, ch)) with
  | none => rfl
  | some e => rw [hf] at h; cases h

theorem sign_response_of_retrieve_none {α : Type u} (client : Client)
    (user? : Option (User α)) (userId ch : String) (engine : TransDict α → SignResult)
    (mdOf : Device α → Metadata) (respP : PropMap α) (now : Nat)
    (s : TStore (TransDict α)) (h : (s.retrieve client.id userId ch).1 = none) :
    sign_response client user? userId ch engine mdOf respP now s
      = (Except.error (Err.notFound "Transaction not found"), user?, s) := by
  unfold sign_response
  rw [retrieve_none_eq s client.id userId ch h]

theorem register_response_of_retrieve_none {α : Type u} (allowUntrusted : Bool)
    (client : Client) (user? : Option (User α)) (userId ch : String)
    (engine : TransDict α → BindData × Certificate) (attOf : Certificate → AttResult)
    (respP : PropMap α) (nh : String) (s : TStore (TransDict α))
    (h : (s.retrieve client.id userId ch).1 = none) :
    register_response allowUntrusted client user? userId ch engine attOf respP nh s
      = (Except.error (Err.notFound "Transaction not found"), user?, s) := by
  unfold register_response
  rw [retrieve_none_eq s client.id userId ch h]

theorem sign_response_store_component {α : Type u} (client : Client)
    (user? : Option (User α)) (userId ch : String) (engine : TransDict α → SignResult)
    (mdOf : Device α → Metadata) (respP : PropMap α) (now : Nat)
    (s : TStore (TransDict α)) :
    (sign_response client user? userId ch engine mdOf respP now s).2.2
      = (s.retrieve client.id userId ch).2 := by
  unfold sign_response
  rcases hr : s.retrieve client.id userId ch with ⟨rdo, s2⟩
  cases rdo with
  | none => rfl
  | some rd =>
    simp only
    repeat' split
    all_goals rfl

/-- Claim C8: a transaction is retrievable at most once: storing then
retrieving yields the stored data, a second retrieval of the same key
always yields no value; when no transaction matches, both completion
handlers fail NotFound "Transaction not found" with the user state and
the store untouched and without depending on the crypto engine; and a
second completion presenting the same challenge after any first
completion fails NotFound. -/
theorem c8_transaction_consumed_once {α : Type u} :
    (∀ (s : TStore (TransDict α)) (cid : Nat) (uid ch : String) (d : TransDict α),
      ((TStore.store s cid uid ch d).retrieve cid uid ch).1 = some d)
    ∧ (∀ (s : TStore (TransDict α)) (cid : Nat) (uid ch : String),
      (((s.retrieve cid uid ch).2).retrieve cid uid ch).1 = none)
    ∧ (∀ (client : Client) (user? : Option (User α)) (userId ch : String)
        (e1 e2 : TransDict α → SignResult) (mdOf : Device α → Metadata)
        (respP : PropMap α) (now : Nat) (s : TStore (TransDict α)),
      (s.retrieve client.id userId ch).1 = none →
      sign_response client user? userId ch e1 mdOf respP now s
        = (Except.error (Err.notFound "Transaction not found"), user?, s)
      ∧ sign_response client user? userId ch e1 mdOf respP now s
        = sign_response client user? userId ch e2 mdOf respP now s)
    ∧ (∀ (allowUntrusted : Bool) (client : Client) (user? : Option (User α))
        (userId ch : String) (e1 e2 : TransDict α → BindData × Certificate)
        (attOf : Certificate → AttResult) (respP : PropMap α) (nh : String)
        (s : TStore (TransDict α)),
      (s.retrieve client.id userId ch).1 = none →
      register_response allowUntrusted client user? userId ch e1 attOf respP nh s
        = (Except.error (Err.notFound "Transaction not found"), user?, s)
      ∧ register_response allowUntrusted client user? userId ch e1 attOf respP nh s
        = register_response allowUntrusted client user? userId ch e2 attOf respP nh s)
    ∧ (∀ (client : Client) (u1 u2 : Option (User α)) (userId ch : String)
        (e1 e2 : TransDict α → SignResult) (mdOf : Device α → Metadata)
        (respP1 respP2 : PropMap α) (n1 n2 : Nat) (s : TStore (TransDict α)),
      (sign_response client u2 userId ch e2 mdOf respP2 n2
          (sign_response client u1 userId ch e1 mdOf respP1 n1 s).2.2).1
        = Except.error (Err.notFound "Transaction not found")) := by
  refine ⟨retrieve_store_same, retrieve_twice_none, ?_, ?_, ?_⟩
  · intro client user? userId ch e1 e2 mdOf respP now s h
    exact ⟨sign_response_of_retrieve_none client user? userId ch e1 mdOf respP now s h,
      (sign_response_of_retrieve_none client user? userId ch e1 mdOf respP now s h).trans
        (sign_response_of_retrieve_none client user? userId ch e2 mdOf respP now s h).symm⟩
  · intro allowUntrusted client user? userId ch e1 e2 attOf respP nh s h
    exact ⟨register_response_of_retrieve_none allowUntrusted client user? userId ch
        e1 attOf respP nh s h,
      (register_response_of_retrieve_none allowUntrusted client user? userId ch
        e1 attOf respP nh s h).trans
      (register_response_of_retrieve_none allowUntrusted client user? userId ch
        e2 attOf respP nh s h).symm⟩
  · intro client u1 u2 userId ch e1 e2 mdOf respP1 respP2 n1 n2 s
    rw [sign_response_store_component client u1 userId ch e1 mdOf respP1 n1 s]
    rw [sign_response_of_retrieve_none client u2 userId ch e2 mdOf respP2 n2 _
      (retrieve_twice_none s client.id userId ch)]

/-- Witness for C8 on concrete stores: the one-entry store storeReg, the
empty store, and a repeated completion of the same challenge. -/
theorem c8_transaction_consumed_once_witness :
    ((TStore.store (⟨[]⟩ : TStore (TransDict String)) 1 "u" "ch" rdReg).retrieve 1 "u" "ch").1
      = some rdReg
    ∧ ((storeReg.retrieve 1 "u" "ch").2.retrieve 1 "u" "ch").1 = none
    ∧ sign_response clientW (some uW) "u" "ch" signEngW mdW [] 3
        (⟨[]⟩ : TStore (TransDict String))
      = (Except.error (Err.notFound "Transaction not found"), some uW, (⟨[]⟩ : TStore (TransDict String)))
    ∧ register_response true clientW (some uW) "u" "ch" engineW attOfBad [] "h9"
        (⟨[]⟩ : TStore (TransDict String))
      = (Except.error (Err.notFound "Transaction not found"), some uW, (⟨[]⟩ : TStore (TransDict String)))
    ∧ (sign_response clientW (some uW) "u" "ch" signEngW mdW [] 4
        (sign_response clientW (some uW) "u" "ch" signEngW mdW [] 3 storeReg).2.2).1
      = Except.error (Err.notFound "Transaction not found") := by
  have h := c8_transaction_consumed_once (α := String)
  exact ⟨h.1 ⟨[]⟩ 1 "u" "ch" rdReg, h.2.1 storeReg 1 "u" "ch",
    (h.2.2.1 clientW (some uW) "u" "ch" signEngW signEngW mdW [] 3 ⟨[]⟩ rfl).1,
    (h.2.2.2.1 true clientW (some uW) "u" "ch" engineW engineW attOfBad [] "h9" ⟨[]⟩ rfl).1,
    h.2.2.2.2 clientW (some uW) (some uW) "u" "ch" signEngW signEngW mdW [] [] 3 4 storeReg⟩

theorem replaceDevice_addDevice_mem {α : Type u} (u : User α) (nh : String)
    (bd : BindData) (cert : Certificate) (tr : Nat) (dev2 : Device α)
    (h : dev2.handle = nh) :
    ∃ dev ∈ (replaceDevice (addDevice u nh bd cert tr).1 dev2).devices,
      dev.handle = nh := by
  refine ⟨dev2, ?_, h⟩
  simp only [replaceDevice, addDevice, List.map_append]
  refine List.mem_append.mpr (Or.inr ?_)
  simp [h]

/-- Claim C4: a registration completion whose resolved attestation is an
attestation object with the trusted flag false fails with BadInput
"Device attestation not trusted" and leaves the user state untouched (no
Device persisted, no User created) when the allow-untrusted flag is off,
and succeeds persisting the new Device when the flag is on. -/
theorem c4_untrusted_attestation_gate {α : Type u}
    (client : Client) (user? : Option (User α)) (userId challenge : String)
    (engine : TransDict α → BindData × Certificate) (attOf : Certificate → AttResult)
    (respP : PropMap α) (newHandle : String) (s s2 : TStore (TransDict α))
    (rd : TransDict α) (reqP : PropMap α) (a : Attestation)
    (hret : s.retrieve client.id userId challenge = (some rd, s2))
    (hp : getProps rd = some reqP)
    (hatt : attOf (engine rd).2 = AttResult.found a)
    (htr : a.trusted = false) :
    register_response false client user? userId challenge engine attOf respP newHandle s
      = (Except.error (Err.badInput "Device attestation not trusted"), user?, s2)
    ∧ ∃ (u3 : User α) (desc : Descriptor α),
      register_response true client user? userId challenge engine attOf respP newHandle s
        = (Except.ok desc, some u3, s2)
      ∧ ∃ dev ∈ u3.devices, dev.handle = newHandle := by
  constructor
  · unfold register_response
    rw [hret]
    simp [hatt, htr]
  · unfold register_response
    rw [hret]
    simp only [hatt, hp, Bool.not_true, if_neg]
    refine ⟨_, _, rfl, ?_⟩
    exact replaceDevice_addDevice_mem _ _ _ _ _ _ rfl

/-- Witness for C4 on the concrete one-transaction store with the
untrusted attestation attBad. -/
theorem c4_untrusted_attestation_gate_witness :
    register_response false clientW (some uW) "u" "ch" engineW attOfBad [] "h9" storeReg
      = (Except.error (Err.badInput "Device attestation not trusted"), some uW,
          (⟨[]⟩ : TStore (TransDict String)))
    ∧ ∃ (u3 : User String) (desc : Descriptor String),
      register_response true clientW (some uW) "u" "ch" engineW attOfBad [] "h9" storeReg
        = (Except.ok desc, some u3, (⟨[]⟩ : TStore (TransDict String)))
      ∧ ∃ dev ∈ u3.devices, dev.handle = "h9" :=
  c4_untrusted_attestation_gate clientW (some uW) "u" "ch" engineW attOfBad [] "h9"
    storeReg ⟨[]⟩ rdReg [("p", "q")] attBad (by decide) (by decide) rfl rfl

end U2fval
